import Mathlib

/-!
Shallow embedding of the sweet-vs-savoury revenue "battle" app
(api/install.js webhook handler, api/battle-state.js read endpoint).

Monetary amounts and quantities are JavaScript numbers in the source;
they are modelled as exact rationals here.  Strings that the source
parses with parseFloat are modelled as an `Option Money` carrying the
numeric value the string parses to (`none` for an absent or unparsable
field, which parseMoney turns into 0).  The Vercel KV store is modelled
as an association list from order id to order record plus a totals
record; kv.get is association lookup, kv.set insert-or-replace, kv.del
removal.  Identifier fields that the source guards with JavaScript
truthiness (`if (!orderId) return`) are modelled as `Option Nat`, with
the value 0 also counting as falsy, exactly as in JavaScript.
-/

namespace Battle

abbrev Money := ℚ

/-- One of the two revenue categories ('sweet' or 'savoury'). -/
inductive Side where
  | sweet
  | savoury
deriving DecidableEq, Repr

/-- Stored per-line-item state inside an order record
(install.js buildOrderContribution, lines 171-176). -/
structure LineItemRecord where
  side : Side
  quantity : ℚ
  revenue : Money
  remaining : Money
deriving DecidableEq, Repr

/-- The per-order ledger record stored under battle:order:id
(install.js handleOrderPaid, lines 202-207). -/
structure OrderRecord where
  orderId : ℕ
  sweet : Money
  savoury : Money
  lineItems : List (ℕ × LineItemRecord)
deriving DecidableEq, Repr

/-- The battle:totals hash: two running sums plus lastUpdated
(modelled as an abstract timestamp). -/
structure Totals where
  sweet : Money
  savoury : Money
  lastUpdated : ℕ
deriving DecidableEq, Repr

/-- The slice of the KV store the webhook handlers touch. -/
structure StoreState where
  orders : List (ℕ × OrderRecord)
  totals : Totals
deriving DecidableEq, Repr

/-- Association-list lookup, modelling kv.get on an order key. -/
def assocGet {β : Type} (k : ℕ) : List (ℕ × β) → Option β
  | [] => none
  | (a, b) :: rest => if k = a then some b else assocGet k rest

/-- Insert-or-replace, modelling kv.set (and JavaScript object
assignment obj[k] = v). -/
def assocSet {β : Type} (k : ℕ) (v : β) : List (ℕ × β) → List (ℕ × β)
  | [] => [(k, v)]
  | (a, b) :: rest => if k = a then (k, v) :: rest else (a, b) :: assocSet k v rest

/-- Key removal, modelling kv.del. -/
def assocDel {β : Type} (k : ℕ) : List (ℕ × β) → List (ℕ × β)
  | [] => []
  | (a, b) :: rest => if k = a then assocDel k rest else (a, b) :: assocDel k rest

/-- parseMoney (install.js lines 52-55): parseFloat of the given string,
0 when the field is absent or unparsable.  The option carries the value
the string parses to. -/
def parseMoney (v : Option Money) : Money := v.getD 0

/-- JavaScript a || b on numbers: b when a is 0 (falsy), else a. -/
def jsOr (a b : ℚ) : ℚ := if a = 0 then b else a

/-- JavaScript truthiness of an identifier field: absent and 0 are falsy. -/
def jsTruthyId : Option ℕ → Bool
  | none => false
  | some n => n != 0

/-- updateTotals (install.js lines 182-188): atomically increment both
sides and stamp lastUpdated with the current time. -/
def updateTotals (now : ℕ) (deltaSweet deltaSavoury : Money) (t : Totals) : Totals :=
  { sweet := t.sweet + deltaSweet
    savoury := t.savoury + deltaSavoury
    lastUpdated := now }

/-- A line item of an orders/paid payload, with the fields install.js
reads.  price_set_amount and total_discount_set_amount model
price_set.shop_money.amount and total_discount_set.shop_money.amount;
quantity carries the value of Number(item.quantity || 0). -/
structure InputLineItem where
  id : ℕ
  product_id : Option ℕ
  quantity : ℚ
  price_set_amount : Option Money
  price : Option Money
  total_discount_set_amount : Option Money
  total_discount : Option Money
deriving DecidableEq, Repr

/-- Result of buildOrderContribution: per-side totals and the
per-line-item ledger fragment. -/
structure Contribution where
  sweet : Money
  savoury : Money
  lineItems : List (ℕ × LineItemRecord)
deriving DecidableEq, Repr

/-- The side getProductSide resolves for an item: none when product_id
is absent or falsy (0), otherwise whatever the classifier returns.
The classifier function stands for the cache-plus-Shopify lookup. -/
def itemSide (classify : ℕ → Option Side) (item : InputLineItem) : Option Side :=
  match item.product_id with
  | none => none
  | some pid => if pid = 0 then none else classify pid

/-- The effective unit price (install.js lines 163-164): the price_set
amount, falling back to item.price when the former parses to 0. -/
def itemPrice (item : InputLineItem) : Money :=
  jsOr (parseMoney item.price_set_amount) (parseMoney item.price)

/-- The effective line discount (install.js lines 165-166). -/
def itemDiscount (item : InputLineItem) : Money :=
  jsOr (parseMoney item.total_discount_set_amount) (parseMoney item.total_discount)

/-- lineTotal = max(price * quantity - totalDiscount, 0)
(install.js line 168). -/
def lineTotalOf (item : InputLineItem) : Money :=
  max (itemPrice item * item.quantity - itemDiscount item) 0

/-- One iteration of the buildOrderContribution loop
(install.js lines 155-177). -/
def buildStep (classify : ℕ → Option Side) (c : Contribution) (item : InputLineItem) :
    Contribution :=
  match itemSide classify item with
  | none => c
  | some side =>
    if item.quantity ≤ 0 then c
    else
      let lineTotal := lineTotalOf item
      { sweet := if side = Side.sweet then c.sweet + lineTotal else c.sweet
        savoury := if side = Side.savoury then c.savoury + lineTotal else c.savoury
        lineItems := assocSet item.id
          { side := side, quantity := item.quantity,
            revenue := lineTotal, remaining := lineTotal } c.lineItems }

/-- buildOrderContribution (install.js lines 148-180). -/
def buildOrderContribution (classify : ℕ → Option Side) (items : List InputLineItem) :
    Contribution :=
  items.foldl (buildStep classify) { sweet := 0, savoury := 0, lineItems := [] }

/-- An orders/paid payload (the fields handleOrderPaid reads). -/
structure PaidPayload where
  id : Option ℕ
  line_items : List InputLineItem
deriving DecidableEq, Repr

/-- handleOrderPaid (install.js lines 190-208). -/
def handleOrderPaid (classify : ℕ → Option Side) (now : ℕ) (p : PaidPayload)
    (s : StoreState) : StoreState :=
  match p.id with
  | none => s
  | some oid =>
    if oid = 0 then s
    else
      match assocGet oid s.orders with
      | some _ => s
      | none =>
        let c := buildOrderContribution classify p.line_items
        if c.sweet = 0 ∧ c.savoury = 0 then s
        else
          { orders := assocSet oid
              { orderId := oid, sweet := c.sweet, savoury := c.savoury,
                lineItems := c.lineItems } s.orders
            totals := updateTotals now c.sweet c.savoury s.totals }

/-- An orders/cancelled payload (only the id field is read). -/
structure CancelPayload where
  id : Option ℕ
deriving DecidableEq, Repr

/-- handleOrderCancelled (install.js lines 210-220). -/
def handleOrderCancelled (now : ℕ) (p : CancelPayload) (s : StoreState) : StoreState :=
  match p.id with
  | none => s
  | some oid =>
    if oid = 0 then s
    else
      match assocGet oid s.orders with
      | none => s
      | some record =>
        { orders := assocDel oid s.orders
          totals := updateTotals now (-record.sweet) (-record.savoury) s.totals }

/-- A refund line item: line_item_id and Number(quantity || 0). -/
structure RefundLineItem where
  line_item_id : ℕ
  quantity : ℚ
deriving DecidableEq, Repr

/-- A refunds/create payload (the fields handleRefundCreate reads). -/
structure RefundPayload where
  order_id : Option ℕ
  refund_line_items : List RefundLineItem
deriving DecidableEq, Repr

/-- One iteration of the handleRefundCreate loop (install.js lines
233-248), threading the two deltas and the mutated lineItems map.
jsOr models the JavaScript fallback line.remaining || line.revenue,
and the quantity guard if (!quantity || !line.quantity) skips exactly
the zero values. -/
def refundStep (acc : ℚ × ℚ × List (ℕ × LineItemRecord)) (item : RefundLineItem) :
    ℚ × ℚ × List (ℕ × LineItemRecord) :=
  match assocGet item.line_item_id acc.2.2 with
  | none => acc
  | some line =>
    if item.quantity = 0 ∨ line.quantity = 0 then acc
    else
      let fraction := min (item.quantity / line.quantity) 1
      let refundAmount := min (jsOr line.remaining line.revenue) (line.revenue * fraction)
      let newSweet := if line.side = Side.sweet then acc.1 - refundAmount else acc.1
      let newSavoury := if line.side = Side.savoury then acc.2.1 - refundAmount else acc.2.1
      let newLine := { line with
        remaining := max (jsOr line.remaining line.revenue - refundAmount) 0 }
      (newSweet, newSavoury, assocSet item.line_item_id newLine acc.2.2)

/-- handleRefundCreate (install.js lines 222-257).  When both deltas
are zero the record is not persisted, so the store is unchanged. -/
def handleRefundCreate (now : ℕ) (p : RefundPayload) (s : StoreState) : StoreState :=
  match p.order_id with
  | none => s
  | some oid =>
    if oid = 0 then s
    else
      match assocGet oid s.orders with
      | none => s
      | some record =>
        let res := p.refund_line_items.foldl refundStep (0, 0, record.lineItems)
        if res.1 = 0 ∧ res.2.1 = 0 then s
        else
          let newRecord := { record with
            sweet := max (record.sweet + res.1) 0
            savoury := max (record.savoury + res.2.1) 0
            lineItems := res.2.2 }
          { orders := assocSet oid newRecord s.orders
            totals := updateTotals now res.1 res.2.1 s.totals }

/-- A webhook event as dispatched by the topic router
(install.js lines 284-290); other covers unrecognized topics. -/
inductive WebhookEvent where
  | paid (now : ℕ) (p : PaidPayload)
  | cancelled (now : ℕ) (p : CancelPayload)
  | refund (now : ℕ) (p : RefundPayload)
  | other
deriving DecidableEq, Repr

/-- Topic dispatch of one event. -/
def routeEvent (classify : ℕ → Option Side) (s : StoreState) : WebhookEvent → StoreState
  | WebhookEvent.paid now p => handleOrderPaid classify now p s
  | WebhookEvent.cancelled now p => handleOrderCancelled now p s
  | WebhookEvent.refund now p => handleRefundCreate now p s
  | WebhookEvent.other => s

/-- Process a sequence of webhook events. -/
def runEvents (classify : ℕ → Option Side) (s : StoreState) (es : List WebhookEvent) :
    StoreState :=
  es.foldl (routeEvent classify) s

/-- The empty initial store: no orders, zero totals. -/
def initialState : StoreState :=
  { orders := [], totals := { sweet := 0, savoury := 0, lastUpdated := 0 } }

/-- ASCII lowercasing of one character, modelling what
String.prototype.toLowerCase does on the ASCII range the side
literals live in. -/
def lowerChar (c : Char) : Char :=
  if 'A' ≤ c ∧ c ≤ 'Z' then Char.ofNat (c.toNat + 32) else c

/-- toLowerCase over a whole string, character by character. -/
def lowerString (s : String) : String :=
  String.mk (s.data.map lowerChar)

/-- The whitespace characters String.prototype.trim strips (the ASCII
ones relevant here). -/
def isWhitespaceChar (c : Char) : Bool :=
  c = ' ' || c = '\t' || c = '\n' || c = '\r'

/-- String.prototype.trim: drop whitespace from both ends. -/
def trimChars (s : String) : String :=
  String.mk (((s.data.dropWhile fun c => isWhitespaceChar c).reverse.dropWhile
    fun c => isWhitespaceChar c).reverse)

/-- normalizeSide (install.js lines 57-62): falsy values give null,
otherwise trim, lowercase and accept exactly 'sweet' or 'savoury'. -/
def normalizeSide : Option String → Option Side
  | none => none
  | some v =>
    if v = "" then none
    else
      let side := lowerString (trimChars v)
      if side = "sweet" then some Side.sweet
      else if side = "savoury" then some Side.savoury
      else none

/-- The product data getProductSide fetches from Shopify: the
battle.side metafield value (none when the metafield is null or its
value falsy) and the tag list (none when tags is not an array). -/
structure ProductInfo where
  metafield_value : Option String
  tags : Option (List String)
deriving DecidableEq, Repr

/-- What one call of getProductSide returns and writes: the resolved
side (if any) and the cache write it performs (value and ttl in
seconds), none when nothing is cached. -/
structure ClassifyResult where
  result : Option Side
  cacheWrite : Option (Side × ℕ)
deriving DecidableEq, Repr

/-- getProductSide (install.js lines 116-146) as a pure function of the
cached entry for the product key and the fetched product data.  A cache
hit returns the cached side and writes nothing; on a miss the metafield
is consulted first, then the lowercased tags; each resolved side is
cached with ttl 86400; a missing product or no match yields null with
no cache write. -/
def getProductSide (cached : Option Side) (product : Option ProductInfo) : ClassifyResult :=
  match cached with
  | some side => { result := some side, cacheWrite := none }
  | none =>
    match product with
    | none => { result := none, cacheWrite := none }
    | some prod =>
      match normalizeSide prod.metafield_value with
      | some side => { result := some side, cacheWrite := some (side, 86400) }
      | none =>
        let tags := (prod.tags.getD []).map lowerString
        if tags.contains "sweet" then
          { result := some Side.sweet, cacheWrite := some (Side.sweet, 86400) }
        else if tags.contains "savoury" then
          { result := some Side.savoury, cacheWrite := some (Side.savoury, 86400) }
        else
          { result := none, cacheWrite := none }

/-- The battle:totals hash as hgetall returns it to battle-state.js:
each field may be absent; numeric fields carry the number the stored
string converts to. -/
structure TotalsHash where
  sweet : Option ℚ
  savoury : Option ℚ
  lastUpdated : Option String
deriving DecidableEq, Repr

/-- The read endpoint (api/battle-state.js) as a pure function of the
request method, the stored battle:totals hash (none when the key is
absent, in which case hgetall's null is replaced by an empty object)
and the current timestamp.  Result: status code and, for a 200, the
JSON body fields sweetRevenue, savouryRevenue, lastUpdated. -/
def battleState (method : String) (stored : Option TotalsHash) (now : String) :
    ℕ × Option (ℚ × ℚ × String) :=
  if method = "OPTIONS" then (204, none)
  else if method ≠ "GET" then (405, none)
  else
    let totals := stored.getD { sweet := none, savoury := none, lastUpdated := none }
    (200, some (totals.sweet.getD 0, totals.savoury.getD 0, totals.lastUpdated.getD now))

/-- The parsed JSON body of a webhook request, restricted to the fields
the three handlers read. -/
structure PayloadValue where
  id : Option ℕ
  order_id : Option ℕ
  line_items : List InputLineItem
  refund_line_items : List RefundLineItem
deriving DecidableEq, Repr

/-- An inbound webhook request after the raw body has been read:
method, whether the HMAC signature verifies, the JSON parse of the body
(none when JSON.parse throws) and the topic header. -/
structure WebhookRequest where
  method : String
  validSignature : Bool
  body : Option PayloadValue
  topic : String
deriving DecidableEq, Repr

/-- The webhook handler module.exports (install.js lines 259-298):
method and signature checks, JSON parsing, then topic dispatch.
Unrecognized topics are acknowledged with 200 and no processing.  The
catch-all 500 branch for handler exceptions (store or Shopify failures)
is outside this pure model. -/
def webhookHandler (classify : ℕ → Option Side) (now : ℕ) (req : WebhookRequest)
    (s : StoreState) : ℕ × StoreState :=
  if req.method ≠ "POST" then (405, s)
  else if !req.validSignature then (401, s)
  else
    match req.body with
    | none => (400, s)
    | some payload =>
      if req.topic = "orders/paid" then
        (200, handleOrderPaid classify now
          { id := payload.id, line_items := payload.line_items } s)
      else if req.topic = "orders/cancelled" then
        (200, handleOrderCancelled now { id := payload.id } s)
      else if req.topic = "refunds/create" then
        (200, handleRefundCreate now
          { order_id := payload.order_id
            refund_line_items := payload.refund_line_items } s)
      else (200, s)

/-- A classifier that resolves product 55 as sweet, used by the
concrete refund scenarios below. -/
def classify55 : ℕ → Option Side :=
  fun p => if p = 55 then some Side.sweet else none

/-- Line item 11: product 55, quantity 2 at unit price 5, no
discount. -/
def paidItem : InputLineItem :=
  { id := 11
    product_id := some 55
    quantity := 2
    price_set_amount := none
    price := some 5
    total_discount_set_amount := none
    total_discount := none }

/-- A line item that carries no product_id, so its classification
resolves to none. -/
def noSideItem : InputLineItem :=
  { id := 7
    product_id := none
    quantity := 1
    price_set_amount := none
    price := some 3
    total_discount_set_amount := none
    total_discount := none }

/-- A paid order: order 1, one line item 11 of product 55, quantity 2
at unit price 5, no discount; its contribution is sweet = 10. -/
def paidOrder : PaidPayload :=
  { id := some 1, line_items := [paidItem] }

/-- A store that already holds a record for order 1. -/
def orderOneState : StoreState :=
  { orders := [(1, { orderId := 1, sweet := 10, savoury := 0
                     lineItems := [(11, { side := Side.sweet, quantity := 2
                                          revenue := 10, remaining := 10 })] })]
    totals := { sweet := 10, savoury := 0, lastUpdated := 1 } }

/-- A refund of the full quantity 2 of line item 11 of order 1. -/
def refundFull : RefundPayload :=
  { order_id := some 1, refund_line_items := [{ line_item_id := 11, quantity := 2 }] }

/-- A further refund of quantity 1 of line item 11 of order 1. -/
def refundHalf : RefundPayload :=
  { order_id := some 1, refund_line_items := [{ line_item_id := 11, quantity := 1 }] }

/-- The store after paying order 1 and refunding it in full. -/
def fullyRefundedState : StoreState :=
  runEvents classify55 initialState
    [WebhookEvent.paid 1 paidOrder, WebhookEvent.refund 2 refundFull]

/-- The store after paying order 1, refunding it in full, and then
refunding quantity 1 of the same line item once more. -/
def doubleRefundState : StoreState :=
  runEvents classify55 initialState
    [WebhookEvent.paid 1 paidOrder, WebhookEvent.refund 2 refundFull,
     WebhookEvent.refund 3 refundHalf]

/-- Sum of the stored sweet totals over all currently existing order
records. -/
def activeSweetSum (s : StoreState) : Money :=
  (s.orders.map (fun kv => kv.2.sweet)).sum

/-- Sum of the stored savoury totals over all currently existing order
records. -/
def activeSavourySum (s : StoreState) : Money :=
  (s.orders.map (fun kv => kv.2.savoury)).sum

/-- A well-signed POST whose JSON body parses but carries no id field,
delivered as an orders/paid event. -/
def missingIdRequest : WebhookRequest :=
  { method := "POST"
    validSignature := true
    body := some { id := none, order_id := none, line_items := [], refund_line_items := [] }
    topic := "orders/paid" }

/-- A well-signed POST whose raw body is not valid JSON. -/
def malformedRequest : WebhookRequest :=
  { method := "POST"
    validSignature := true
    body := none
    topic := "orders/paid" }

/-- The literal value of fullyRefundedState: order 1 fully refunded,
remaining and aggregate both zero. -/
def fullyRefundedLit : StoreState :=
  { orders := [(1, { orderId := 1, sweet := 0, savoury := 0
                     lineItems := [(11, { side := Side.sweet, quantity := 2
                                          revenue := 10, remaining := 0 })] })]
    totals := { sweet := 0, savoury := 0, lastUpdated := 2 } }

/-- The literal value of doubleRefundState: the second refund pushed
the aggregate to -5 while the record's stored total was floored at 0
and the line's remaining climbed back to 5. -/
def doubleRefundLit : StoreState :=
  { orders := [(1, { orderId := 1, sweet := 0, savoury := 0
                     lineItems := [(11, { side := Side.sweet, quantity := 2
                                          revenue := 10, remaining := 5 })] })]
    totals := { sweet := -5, savoury := 0, lastUpdated := 3 } }

theorem assocGet_assocSet_self {β : Type} (k : ℕ) (v : β) (l : List (ℕ × β)) :
    assocGet k (assocSet k v l) = some v := by
  induction l with
  | nil => simp [assocGet, assocSet]
  | cons kv rest ih =>
    obtain ⟨a, b⟩ := kv
    by_cases h : k = a
    · simp [assocSet, assocGet, h]
    · simp [assocSet, assocGet, h, ih]

theorem assocGet_assocSet_ne {β : Type} {k a : ℕ} (h : k ≠ a) (v : β) (l : List (ℕ × β)) :
    assocGet k (assocSet a v l) = assocGet k l := by
  induction l with
  | nil => simp [assocGet, assocSet, h]
  | cons kv rest ih =>
    obtain ⟨a2, b2⟩ := kv
    by_cases h2 : a = a2
    · subst h2
      simp [assocSet, assocGet, h]
    · by_cases h3 : k = a2 <;> simp [assocSet, assocGet, h2, h3, ih]

theorem assocGet_assocDel_self {β : Type} (k : ℕ) (l : List (ℕ × β)) :
    assocGet k (assocDel k l) = none := by
  induction l with
  | nil => rfl
  | cons kv rest ih =>
    obtain ⟨a, b⟩ := kv
    by_cases h : k = a
    · subst h
      simp [assocDel, ih]
    · simp [assocDel, assocGet, h, ih]

theorem refundStep_frame (lid : ℕ) (acc : ℚ × ℚ × List (ℕ × LineItemRecord))
    (it : RefundLineItem) (h : it.line_item_id ≠ lid) :
    assocGet lid (refundStep acc it).2.2 = assocGet lid acc.2.2 := by
  unfold refundStep
  cases hget : assocGet it.line_item_id acc.2.2 with
  | none => rfl
  | some line =>
    by_cases hq : it.quantity = 0 ∨ line.quantity = 0
    · simp [hq]
    · simp [hq, assocGet_assocSet_ne (Ne.symm h)]

theorem refundFold_frame (items : List RefundLineItem) (lid : ℕ)
    (h : ∀ it ∈ items, it.line_item_id ≠ lid) :
    ∀ acc, assocGet lid (items.foldl refundStep acc).2.2 = assocGet lid acc.2.2 := by
  induction items with
  | nil => intro acc; rfl
  | cons it rest ih =>
    intro acc
    rw [List.foldl_cons, ih (fun x hx => h x (List.mem_cons_of_mem _ hx)),
      refundStep_frame lid acc it (h it (List.mem_cons_self _ _))]

theorem handleRefundCreate_expand (now : ℕ) (p : RefundPayload) (s : StoreState)
    (oid : ℕ) (record : OrderRecord) (hid : p.order_id = some oid) (h0 : oid ≠ 0)
    (hget : assocGet oid s.orders = some record)
    (hz : ¬((p.refund_line_items.foldl refundStep (0, 0, record.lineItems)).1 = 0 ∧
      (p.refund_line_items.foldl refundStep (0, 0, record.lineItems)).2.1 = 0)) :
    handleRefundCreate now p s =
      { orders := assocSet oid
          { record with
            sweet := max (record.sweet +
              (p.refund_line_items.foldl refundStep (0, 0, record.lineItems)).1) 0
            savoury := max (record.savoury +
              (p.refund_line_items.foldl refundStep (0, 0, record.lineItems)).2.1) 0
            lineItems := (p.refund_line_items.foldl refundStep (0, 0, record.lineItems)).2.2 }
          s.orders
        totals := updateTotals now
          (p.refund_line_items.foldl refundStep (0, 0, record.lineItems)).1
          (p.refund_line_items.foldl refundStep (0, 0, record.lineItems)).2.1 s.totals } := by
  simp [handleRefundCreate, hid, h0, hget, hz]

/-- Claim C2: processing an identical paid event twice produces the
same ledger and aggregate state as processing it once, and when an
order record for the event's orderId already exists handleOrderPaid
stops without touching the store. -/
theorem handleOrderPaid_idempotent (classify : ℕ → Option Side) (now1 now2 : ℕ)
    (p : PaidPayload) (s : StoreState) :
    handleOrderPaid classify now2 p (handleOrderPaid classify now1 p s) =
      handleOrderPaid classify now1 p s ∧
    (∀ oid, p.id = some oid → oid ≠ 0 → (assocGet oid s.orders).isSome →
      handleOrderPaid classify now1 p s = s) := by
  constructor
  · cases hp : p.id with
    | none => simp [handleOrderPaid, hp]
    | some oid =>
      by_cases h0 : oid = 0
      · simp [handleOrderPaid, hp, h0]
      · cases hget : assocGet oid s.orders with
        | some r => simp [handleOrderPaid, hp, h0, hget]
        | none =>
          by_cases hz : (buildOrderContribution classify p.line_items).sweet = 0 ∧
              (buildOrderContribution classify p.line_items).savoury = 0
          · simp [handleOrderPaid, hp, h0, hget, hz]
          · simp [handleOrderPaid, hp, h0, hget, hz, assocGet_assocSet_self]
  · intro oid hp h0 hsome
    cases hget : assocGet oid s.orders with
    | none => rw [hget] at hsome; simp at hsome
    | some r => simp [handleOrderPaid, hp, h0, hget]

/-- Claim C5: cancelling an absent order is a no-op; cancelling an
existing order applies the negated stored totals as an aggregate delta
and deletes the record, after which a second cancellation and any
refund for that order are no-ops. -/
theorem handleOrderCancelled_spec (now1 now2 now3 : ℕ) (p : CancelPayload)
    (s : StoreState) (oid : ℕ) (hid : p.id = some oid) (h0 : oid ≠ 0) :
    (assocGet oid s.orders = none → handleOrderCancelled now1 p s = s) ∧
    (∀ record, assocGet oid s.orders = some record →
      handleOrderCancelled now1 p s =
        { orders := assocDel oid s.orders
          totals := updateTotals now1 (-record.sweet) (-record.savoury) s.totals } ∧
      handleOrderCancelled now2 p (handleOrderCancelled now1 p s) =
        handleOrderCancelled now1 p s ∧
      (∀ rp : RefundPayload, rp.order_id = some oid →
        handleRefundCreate now3 rp (handleOrderCancelled now1 p s) =
          handleOrderCancelled now1 p s)) := by
  constructor
  · intro hnone
    simp [handleOrderCancelled, hid, h0, hnone]
  · intro record hget
    have h1 : handleOrderCancelled now1 p s =
        { orders := assocDel oid s.orders
          totals := updateTotals now1 (-record.sweet) (-record.savoury) s.totals } := by
      simp [handleOrderCancelled, hid, h0, hget]
    refine ⟨h1, ?_, ?_⟩
    · rw [h1]
      simp [handleOrderCancelled, hid, h0, assocGet_assocDel_self]
    · intro rp hrp
      rw [h1]
      simp [handleRefundCreate, hrp, h0, assocGet_assocDel_self]

/-- Witness for handleOrderPaid_idempotent at order 1 over a store
that already holds a record for order 1. -/
theorem handleOrderPaid_idempotent_witness :
    (assocGet 1 orderOneState.orders).isSome = true ∧
    handleOrderPaid classify55 5 paidOrder orderOneState = orderOneState :=
  ⟨rfl, (handleOrderPaid_idempotent classify55 5 6 paidOrder orderOneState).2 1 rfl
    (by decide) (by rfl)⟩

/-- Witness for handleOrderCancelled_spec: cancelling order 1 and then
refunding it is a no-op on the cancelled state. -/
theorem handleOrderCancelled_spec_witness :
    (1 : ℕ) ≠ 0 ∧
    handleRefundCreate 3 refundHalf
        (handleOrderCancelled 1 { id := some 1 } orderOneState) =
      handleOrderCancelled 1 { id := some 1 } orderOneState :=
  ⟨by decide,
    ((handleOrderCancelled_spec 1 2 3 { id := some 1 } orderOneState 1 rfl
      (by decide)).2 _ rfl).2.2 refundHalf rfl⟩

theorem buildStep_skip (classify : ℕ → Option Side) (c : Contribution)
    (item : InputLineItem) (h : itemSide classify item = none ∨ item.quantity ≤ 0) :
    buildStep classify c item = c := by
  cases hside : itemSide classify item with
  | none => simp [buildStep, hside]
  | some side =>
    rcases h with h | h
    · rw [hside] at h
      exact absurd h (by simp)
    · simp [buildStep, hside, h]

/-- Claim C6: the contribution computation skips items whose
classification is none or whose quantity is not positive (such items
leave the accumulator untouched, and an all-skipped list yields the
empty contribution); every other item contributes the never-negative
lineTotal = max(price * quantity - discount, 0) to its side's total
and a ledger entry with remaining = revenue = lineTotal. -/
theorem buildOrderContribution_spec (classify : ℕ → Option Side) :
    (∀ c item, itemSide classify item = none ∨ item.quantity ≤ 0 →
      buildStep classify c item = c) ∧
    (∀ c item side, itemSide classify item = some side → 0 < item.quantity →
      0 ≤ lineTotalOf item ∧
      buildStep classify c item =
        { sweet := if side = Side.sweet then c.sweet + lineTotalOf item else c.sweet
          savoury := if side = Side.savoury then c.savoury + lineTotalOf item else c.savoury
          lineItems := assocSet item.id
            { side := side, quantity := item.quantity
              revenue := lineTotalOf item, remaining := lineTotalOf item } c.lineItems }) ∧
    (∀ items, (∀ item ∈ items, itemSide classify item = none ∨ item.quantity ≤ 0) →
      buildOrderContribution classify items =
        { sweet := 0, savoury := 0, lineItems := [] }) := by
  refine ⟨fun c item h => buildStep_skip classify c item h, ?_, ?_⟩
  · intro c item side hside hq
    constructor
    · exact le_max_right _ _
    · simp [buildStep, hside, not_le.mpr hq]
  · intro items
    unfold buildOrderContribution
    induction items with
    | nil => intro h; rfl
    | cons it rest ih =>
      intro h
      rw [List.foldl_cons, buildStep_skip classify _ it (h it (List.mem_cons_self _ _))]
      exact ih (fun x hx => h x (List.mem_cons_of_mem _ hx))

/-- Witness for buildOrderContribution_spec: an item without a side is
skipped, a list of such items contributes nothing, and line item 11's
lineTotal is nonnegative. -/
theorem buildOrderContribution_spec_witness :
    buildStep classify55 { sweet := 0, savoury := 0, lineItems := [] } noSideItem =
      { sweet := 0, savoury := 0, lineItems := [] } ∧
    buildOrderContribution classify55 [noSideItem] =
      { sweet := 0, savoury := 0, lineItems := [] } ∧
    0 ≤ lineTotalOf paidItem :=
  ⟨(buildOrderContribution_spec classify55).1 _ noSideItem (Or.inl rfl),
   (buildOrderContribution_spec classify55).2.2 [noSideItem]
     (fun x hx => by
       rw [List.mem_singleton] at hx
       rw [hx]
       exact Or.inl rfl),
   ((buildOrderContribution_spec classify55).2.1
     { sweet := 0, savoury := 0, lineItems := [] } paidItem Side.sweet rfl
     (by decide)).1⟩

/-- Claim C7: on a cache miss the battle.side metafield takes
precedence over the tags; any resolved side is cached with a 24-hour
(86400 second) ttl; when neither source yields a side the result is
none and nothing is cached. -/
theorem getProductSide_spec (prod : ProductInfo) :
    (∀ side, normalizeSide prod.metafield_value = some side →
      getProductSide none (some prod) =
        { result := some side, cacheWrite := some (side, 86400) }) ∧
    (∀ side, (getProductSide none (some prod)).result = some side →
      (getProductSide none (some prod)).cacheWrite = some (side, 86400)) ∧
    ((getProductSide none (some prod)).result = none →
      (getProductSide none (some prod)).cacheWrite = none) := by
  refine ⟨?_, ?_, ?_⟩
  · intro side h
    simp [getProductSide, h]
  · intro side
    cases hm : normalizeSide prod.metafield_value with
    | some s2 =>
      simp only [getProductSide, hm]
      intro h
      rw [Option.some_inj] at h
      rw [← h]
    | none =>
      simp only [getProductSide, hm]
      by_cases hs : ((prod.tags.getD []).map lowerString).contains "sweet" = true
      · rw [if_pos hs]
        intro h
        rw [Option.some_inj] at h
        rw [← h]
      · rw [if_neg hs]
        by_cases hv : ((prod.tags.getD []).map lowerString).contains "savoury" = true
        · rw [if_pos hv]
          intro h
          rw [Option.some_inj] at h
          rw [← h]
        · rw [if_neg hv]
          intro h
          exact absurd h (by simp)
  · cases hm : normalizeSide prod.metafield_value with
    | some s2 =>
      simp only [getProductSide, hm]
      intro h
      exact absurd h (by simp)
    | none =>
      simp only [getProductSide, hm]
      by_cases hs : ((prod.tags.getD []).map lowerString).contains "sweet" = true
      · rw [if_pos hs]
        intro h
        exact absurd h (by simp)
      · rw [if_neg hs]
        by_cases hv : ((prod.tags.getD []).map lowerString).contains "savoury" = true
        · rw [if_pos hv]
          intro h
          exact absurd h (by simp)
        · rw [if_neg hv]
          intro h
          rfl

/-- Witness for getProductSide_spec: a product whose metafield says
Sweet (with stray case and spaces) but whose tags say savoury resolves
to sweet and caches it for 86400 seconds. -/
theorem getProductSide_spec_witness :
    normalizeSide (some " Sweet ") = some Side.sweet ∧
    getProductSide none
        (some { metafield_value := some " Sweet ", tags := some ["savoury"] }) =
      { result := some Side.sweet, cacheWrite := some (Side.sweet, 86400) } :=
  ⟨by decide,
   (getProductSide_spec { metafield_value := some " Sweet ", tags := some ["savoury"] }).1
     Side.sweet (by decide)⟩

/-- Claim C8: a GET of the totals endpoint always answers 200, and an
absent battle:totals hash (or one with no fields) renders as zero for
both sides with the current timestamp as lastUpdated. -/
theorem battleState_spec (stored : Option TotalsHash) (now : String) :
    (battleState "GET" stored now).1 = 200 ∧
    battleState "GET" none now = (200, some (0, 0, now)) ∧
    battleState "GET"
        (some { sweet := none, savoury := none, lastUpdated := none }) now =
      (200, some (0, 0, now)) := by
  refine ⟨?_, rfl, rfl⟩
  cases stored <;> rfl

theorem sweet_ne_savoury : (Side.sweet = Side.savoury) = False := by decide

theorem savoury_ne_sweet : (Side.savoury = Side.sweet) = False := by decide

theorem fullyRefundedState_eq : fullyRefundedState = fullyRefundedLit := by
  norm_num [fullyRefundedState, fullyRefundedLit, runEvents, routeEvent, handleOrderPaid,
    handleRefundCreate, buildOrderContribution, buildStep, itemSide, lineTotalOf,
    itemPrice, itemDiscount, parseMoney, jsOr, refundStep, assocGet, assocSet,
    updateTotals, initialState, classify55, paidOrder, paidItem, refundFull, refundHalf,
    sweet_ne_savoury, savoury_ne_sweet]

theorem doubleRefundState_eq : doubleRefundState = doubleRefundLit := by
  norm_num [doubleRefundState, doubleRefundLit, runEvents, routeEvent, handleOrderPaid,
    handleRefundCreate, buildOrderContribution, buildStep, itemSide, lineTotalOf,
    itemPrice, itemDiscount, parseMoney, jsOr, refundStep, assocGet, assocSet,
    updateTotals, initialState, classify55, paidOrder, paidItem, refundFull, refundHalf,
    sweet_ne_savoury, savoury_ne_sweet]

/-- Claim C1: the proration bound fails in the code.  After order 1
(line 11, revenue 10) is refunded in full, remaining = 0 and the
aggregate shows the whole 10 refunded; a further refund of quantity 1
nevertheless refunds 5 more (the remaining-or-revenue fallback treats
remaining = 0 as absent), driving the aggregate to -5 — cumulative
refunds of 15 on revenue 10 — and raising remaining back to 5. -/
theorem c1_proration_bound_fails :
    fullyRefundedState.totals.sweet = 0 ∧
    (∃ rec, assocGet 1 fullyRefundedState.orders = some rec ∧
      assocGet 11 rec.lineItems =
        some { side := Side.sweet, quantity := 2, revenue := 10, remaining := 0 }) ∧
    doubleRefundState.totals.sweet = -5 ∧
    (∃ rec, assocGet 1 doubleRefundState.orders = some rec ∧
      assocGet 11 rec.lineItems =
        some { side := Side.sweet, quantity := 2, revenue := 10, remaining := 5 }) := by
  rw [fullyRefundedState_eq, doubleRefundState_eq]
  refine ⟨rfl, ⟨_, rfl, rfl⟩, rfl, ⟨_, rfl, rfl⟩⟩

/-- Claim C3: conservation fails in the code.  After the double-refund
sequence the aggregate sweet total is -5 while the sum of the stored
sweet totals over all existing order records is 0: the record's total
is floored at zero but the aggregate delta is not. -/
theorem c3_conservation_fails :
    doubleRefundState.totals.sweet = -5 ∧
    activeSweetSum doubleRefundState = 0 ∧
    doubleRefundState.totals.sweet ≠ activeSweetSum doubleRefundState := by
  rw [doubleRefundState_eq]
  refine ⟨rfl, ?_, ?_⟩
  · norm_num [activeSweetSum, doubleRefundLit]
  · norm_num [activeSweetSum, doubleRefundLit]

/-- Counterexample for claim C4: a well-signed paid event whose body
parses but lacks the required id field is answered with 200, not a
client error, and mutates nothing. -/
theorem c4_missing_field_not_client_error :
    webhookHandler (fun _ => none) 0 missingIdRequest initialState = (200, initialState) ∧
    ¬(400 ≤ (webhookHandler (fun _ => none) 0 missingIdRequest initialState).1 ∧
      (webhookHandler (fun _ => none) 0 missingIdRequest initialState).1 < 500) := by
  have h1 : webhookHandler (fun _ => none) 0 missingIdRequest initialState =
      (200, initialState) := rfl
  refine ⟨h1, ?_⟩
  rw [h1]
  decide

/-- Claim C4 (amended): a malformed body is rejected with 400 and no
mutation; a paid event missing its id and a refund event missing its
order_id are acknowledged with 200 and no mutation. -/
theorem webhookHandler_validation (classify : ℕ → Option Side) (now : ℕ)
    (req : WebhookRequest) (s : StoreState)
    (hm : req.method = "POST") (hsig : req.validSignature = true) :
    (req.body = none → webhookHandler classify now req s = (400, s)) ∧
    (∀ payload, req.body = some payload → req.topic = "orders/paid" →
      jsTruthyId payload.id = false → webhookHandler classify now req s = (200, s)) ∧
    (∀ payload, req.body = some payload → req.topic = "refunds/create" →
      jsTruthyId payload.order_id = false →
      webhookHandler classify now req s = (200, s)) := by
  refine ⟨?_, ?_, ?_⟩
  · intro hb
    simp [webhookHandler, hm, hsig, hb]
  · intro payload hb ht hjs
    have hpaid : handleOrderPaid classify now
        { id := payload.id, line_items := payload.line_items } s = s := by
      cases hid : payload.id with
      | none => simp [handleOrderPaid]
      | some n =>
        have hn : n = 0 := by simpa [jsTruthyId, hid] using hjs
        simp [handleOrderPaid, hn]
    simp [webhookHandler, hm, hsig, hb, ht, hpaid]
  · intro payload hb ht hjs
    have hrefund : handleRefundCreate now
        { order_id := payload.order_id
          refund_line_items := payload.refund_line_items } s = s := by
      cases hid : payload.order_id with
      | none => simp [handleRefundCreate]
      | some n =>
        have hn : n = 0 := by simpa [jsTruthyId, hid] using hjs
        simp [handleRefundCreate, hn]
    simp [webhookHandler, hm, hsig, hb, ht, hrefund]

/-- Witness for webhookHandler_validation: the malformed body gets 400
and a paid event without id gets 200, both leaving the store as it
was. -/
theorem webhookHandler_validation_witness :
    webhookHandler classify55 0 malformedRequest initialState = (400, initialState) ∧
    webhookHandler classify55 0 missingIdRequest initialState = (200, initialState) :=
  ⟨(webhookHandler_validation classify55 0 malformedRequest initialState rfl rfl).1 rfl,
   (webhookHandler_validation classify55 0 missingIdRequest initialState rfl rfl).2.1
     _ rfl rfl rfl⟩

/-- Claim C9: a refund applied to an existing order record leaves the
record's orderId unchanged and leaves every line item whose id is not
named in the refund payload untouched. -/
theorem handleRefundCreate_frame (now : ℕ) (p : RefundPayload) (s : StoreState)
    (oid : ℕ) (record : OrderRecord) (hid : p.order_id = some oid) (h0 : oid ≠ 0)
    (hget : assocGet oid s.orders = some record) :
    ∃ rec, assocGet oid (handleRefundCreate now p s).orders = some rec ∧
      rec.orderId = record.orderId ∧
      ∀ lid, (∀ it ∈ p.refund_line_items, it.line_item_id ≠ lid) →
        assocGet lid rec.lineItems = assocGet lid record.lineItems := by
  by_cases hz : (p.refund_line_items.foldl refundStep (0, 0, record.lineItems)).1 = 0 ∧
      (p.refund_line_items.foldl refundStep (0, 0, record.lineItems)).2.1 = 0
  · refine ⟨record, ?_, rfl, fun lid h => rfl⟩
    have hnoop : handleRefundCreate now p s = s := by
      simp [handleRefundCreate, hid, h0, hget, hz]
    rw [hnoop, hget]
  · refine ⟨{ record with
        sweet := max (record.sweet +
          (p.refund_line_items.foldl refundStep (0, 0, record.lineItems)).1) 0
        savoury := max (record.savoury +
          (p.refund_line_items.foldl refundStep (0, 0, record.lineItems)).2.1) 0
        lineItems := (p.refund_line_items.foldl refundStep (0, 0, record.lineItems)).2.2 },
      ?_, rfl, ?_⟩
    · simp [handleRefundCreate, hid, h0, hget, hz, assocGet_assocSet_self]
    · intro lid h
      exact refundFold_frame p.refund_line_items lid h (0, 0, record.lineItems)

/-- Witness for handleRefundCreate_frame: refunding line 11 of order 1
leaves the lookup of any other line id (here 99) unchanged. -/
theorem handleRefundCreate_frame_witness :
    ∃ rec, assocGet 1 (handleRefundCreate 7 refundHalf orderOneState).orders = some rec ∧
      rec.orderId = 1 ∧
      ∀ lid, (∀ it ∈ refundHalf.refund_line_items, it.line_item_id ≠ lid) →
        assocGet lid rec.lineItems =
          assocGet lid [(11, { side := Side.sweet, quantity := 2
                               revenue := 10, remaining := (10 : ℚ) })] :=
  handleRefundCreate_frame 7 refundHalf orderOneState 1
    { orderId := 1, sweet := 10, savoury := 0
      lineItems := [(11, { side := Side.sweet, quantity := 2
                           revenue := 10, remaining := 10 })] }
    rfl (by decide) rfl

/-- Claim C10: the refund quantity guard excludes only zero, not
negative quantities.  For a refund line with negative quantity against
a line with positive remaining (and positive revenue and original
quantity), the computed refundAmount is negative, so the aggregate
total for the line's side strictly increases and the stored remaining
strictly increases above its prior value. -/
theorem handleRefundCreate_negative_quantity (now : ℕ) (s : StoreState) (oid lid : ℕ)
    (record : OrderRecord) (line : LineItemRecord) (q : ℚ)
    (h0 : oid ≠ 0) (hrec : assocGet oid s.orders = some record)
    (hline : assocGet lid record.lineItems = some line)
    (hq : q < 0) (hlq : 0 < line.quantity)
    (hrem : 0 < line.remaining) (hrev : 0 < line.revenue) :
    min (jsOr line.remaining line.revenue)
        (line.revenue * min (q / line.quantity) 1) < 0 ∧
    ∃ rec2 line2,
      assocGet oid (handleRefundCreate now
        { order_id := some oid
          refund_line_items := [{ line_item_id := lid, quantity := q }] } s).orders =
          some rec2 ∧
      assocGet lid rec2.lineItems = some line2 ∧
      line.remaining < line2.remaining ∧
      (line.side = Side.sweet →
        s.totals.sweet < (handleRefundCreate now
          { order_id := some oid
            refund_line_items := [{ line_item_id := lid, quantity := q }] } s).totals.sweet) ∧
      (line.side = Side.savoury →
        s.totals.savoury < (handleRefundCreate now
          { order_id := some oid
            refund_line_items := [{ line_item_id := lid, quantity := q }] } s).totals.savoury) := by
  have hqdiv : q / line.quantity < 0 := div_neg_of_neg_of_pos hq hlq
  have hfrac : min (q / line.quantity) 1 = q / line.quantity :=
    min_eq_left (le_trans hqdiv.le zero_le_one)
  have hjsor : jsOr line.remaining line.revenue = line.remaining := if_neg hrem.ne'
  have hamt : line.revenue * (q / line.quantity) < 0 :=
    mul_neg_of_pos_of_neg hrev hqdiv
  have hra : min line.remaining (line.revenue * (q / line.quantity)) =
      line.revenue * (q / line.quantity) :=
    min_eq_right (le_of_lt (lt_trans hamt hrem))
  constructor
  · rw [hjsor, hfrac, hra]
    exact hamt
  · have hguard : ¬(q = 0 ∨ line.quantity = 0) := by
      push_neg
      exact ⟨hq.ne, hlq.ne'⟩
    have hres : ([{ line_item_id := lid, quantity := q }] :
        List RefundLineItem).foldl refundStep (0, 0, record.lineItems) =
        ((if line.side = Side.sweet then 0 - line.revenue * (q / line.quantity) else 0),
         (if line.side = Side.savoury then 0 - line.revenue * (q / line.quantity) else 0),
         assocSet lid
           { line with remaining := max (line.remaining - line.revenue * (q / line.quantity)) 0 }
           record.lineItems) := by
      simp only [List.foldl_cons, List.foldl_nil, refundStep, hline]
      rw [if_neg hguard]
      simp only [hfrac, hjsor, hra]
    have hrem2 : max (line.remaining - line.revenue * (q / line.quantity)) 0 =
        line.remaining - line.revenue * (q / line.quantity) :=
      max_eq_left (by linarith)
    have hrem2lt : line.remaining <
        line.remaining - line.revenue * (q / line.quantity) := by linarith
    have hdelta : (0 : ℚ) - line.revenue * (q / line.quantity) ≠ 0 := by linarith
    cases hside : line.side with
    | sweet =>
      rw [hside] at hres
      rw [if_pos rfl, if_neg (by decide : ¬(Side.sweet = Side.savoury))] at hres
      have hz : ¬(((({ line_item_id := lid, quantity := q } : RefundLineItem) ::
            ([] : List RefundLineItem)).foldl refundStep (0, 0, record.lineItems)).1 = 0 ∧
          ((({ line_item_id := lid, quantity := q } : RefundLineItem) ::
            ([] : List RefundLineItem)).foldl refundStep (0, 0, record.lineItems)).2.1 = 0) := by
        intro hcontra
        apply hdelta
        have h1 := hcontra.1
        rw [hres] at h1
        exact h1
      have hstate := handleRefundCreate_expand now
        { order_id := some oid
          refund_line_items := [{ line_item_id := lid, quantity := q }] }
        s oid record rfl h0 hrec hz
      rw [hres] at hstate
      dsimp only at hstate
      rw [hstate]
      refine ⟨_, _, assocGet_assocSet_self .., assocGet_assocSet_self .., ?_, ?_, ?_⟩
      · dsimp only
        rw [hrem2]
        exact hrem2lt
      · intro hs2
        dsimp only [updateTotals]
        linarith
      · intro hs2
        exact absurd hs2 (by decide)
    | savoury =>
      rw [hside] at hres
      rw [if_neg (by decide : ¬(Side.savoury = Side.sweet)), if_pos rfl] at hres
      have hz : ¬(((({ line_item_id := lid, quantity := q } : RefundLineItem) ::
            ([] : List RefundLineItem)).foldl refundStep (0, 0, record.lineItems)).1 = 0 ∧
          ((({ line_item_id := lid, quantity := q } : RefundLineItem) ::
            ([] : List RefundLineItem)).foldl refundStep (0, 0, record.lineItems)).2.1 = 0) := by
        intro hcontra
        apply hdelta
        have h1 := hcontra.2
        rw [hres] at h1
        exact h1
      have hstate := handleRefundCreate_expand now
        { order_id := some oid
          refund_line_items := [{ line_item_id := lid, quantity := q }] }
        s oid record rfl h0 hrec hz
      rw [hres] at hstate
      dsimp only at hstate
      rw [hstate]
      refine ⟨_, _, assocGet_assocSet_self .., assocGet_assocSet_self .., ?_, ?_, ?_⟩
      · dsimp only
        rw [hrem2]
        exact hrem2lt
      · intro hs2
        exact absurd hs2 (by decide)
      · intro hs2
        dsimp only [updateTotals]
        linarith

/-- Witness for handleRefundCreate_negative_quantity: a refund of
quantity -1 against line 11 of order 1 (remaining 10, revenue 10)
increases the sweet aggregate and the line's remaining. -/
theorem handleRefundCreate_negative_quantity_witness :
    min (jsOr (10 : ℚ) 10) (10 * min ((-1 : ℚ) / 2) 1) < 0 ∧
    ∃ rec2 line2,
      assocGet 1 (handleRefundCreate 9
        { order_id := some 1
          refund_line_items := [{ line_item_id := 11, quantity := -1 }] }
        orderOneState).orders = some rec2 ∧
      assocGet 11 rec2.lineItems = some line2 ∧
      (10 : ℚ) < line2.remaining ∧
      (Side.sweet = Side.sweet →
        orderOneState.totals.sweet < (handleRefundCreate 9
          { order_id := some 1
            refund_line_items := [{ line_item_id := 11, quantity := -1 }] }
          orderOneState).totals.sweet) ∧
      (Side.sweet = Side.savoury →
        orderOneState.totals.savoury < (handleRefundCreate 9
          { order_id := some 1
            refund_line_items := [{ line_item_id := 11, quantity := -1 }] }
          orderOneState).totals.savoury) :=
  handleRefundCreate_negative_quantity 9 orderOneState 1 11
    { orderId := 1, sweet := 10, savoury := 0
      lineItems := [(11, { side := Side.sweet, quantity := 2
                           revenue := 10, remaining := 10 })] }
    { side := Side.sweet, quantity := 2, revenue := 10, remaining := 10 }
    (-1) (by decide) rfl rfl (by decide) (by decide) (by decide) (by decide)

end Battle
